import Mathlib

/-!
Shallow embedding of the Online-Store Flask application (`src/app.py`).

Modelling conventions:
- SQLAlchemy `Float` columns (prices, totals) are modelled as `Rat`; both the
  running checkout total and the per-item snapshots are computed by the same
  accumulation as in the Python loop, so equalities proved over `Rat` mirror
  the exact equalities the code produces.
- The session cart `session['cart']` is a Python dict keyed by the string form
  of the product id with integer values; dicts preserve insertion order, so it
  is embedded as an insertion-ordered association list `List (Nat × Int)`
  (the `str` keying is injective, so `Nat` keys are faithful).
- Database tables are lists of records; `Query.get` is `List.find?` on the
  primary key; auto-increment ids are one more than the current maximum.
- Flask's `flash(message, category)` is a `FlashMsg` value carried in results.
- Flask-Login's `login_required` and the app's `admin_required` decorator are
  higher-order functions over state-passing handlers, applied in the same
  order as in the source (`login_required` outermost).
- The Flask-Mail `mail.send` call is an injected outcome `Except String Unit`;
  `send_order_notification_email` converts it into an optional log line,
  exactly as the `try/except` in the source swallows every exception.
-/

namespace OnlineStore

/-- `Product` model: id, name, price, image_url (`src/app.py` lines 52-56). -/
structure Product where
  id : Nat
  name : String
  price : Rat
  image_url : String
deriving DecidableEq, Repr

/-- `User` model: id, name, email, password_hash, is_admin (lines 38-43). -/
structure User where
  id : Nat
  name : String
  email : String
  password_hash : String
  is_admin : Bool
deriving DecidableEq, Repr

/-- `Order` model: id, user_id, total_price, order_date, customer snapshot
fields and status (lines 58-67). The status strings are the source's literals:
the initial status is the Arabic for "in progress", the delivered status the
Arabic for "delivered". The timestamp is an abstract `Nat` clock value. -/
structure Order where
  id : Nat
  user_id : Nat
  total_price : Rat
  order_date : Nat
  customer_name : String
  address : String
  phone : String
  status : String
deriving DecidableEq, Repr

/-- `OrderItem` model: order_id, product_id, quantity, snapshot price
(lines 69-74). -/
structure OrderItem where
  order_id : Nat
  product_id : Nat
  quantity : Int
  price : Rat
deriving DecidableEq, Repr

/-- Initial order status, `'قيد التنفيذ'` ("in progress", line 66 default). -/
def statusInProgress : String := "قيد التنفيذ"

/-- Terminal order status `'تم التوصيل'` ("delivered", line 261). -/
def statusDelivered : String := "تم التوصيل"

/-- A flash message with its category, as in Flask's `flash(text, category)`. -/
structure FlashMsg where
  text : String
  category : String
deriving DecidableEq, Repr

/-- The authenticated-or-anonymous requester as exposed by Flask-Login's
`current_user`: `is_authenticated` plus the `User.is_admin` flag. -/
structure Identity where
  is_authenticated : Bool
  is_admin : Bool
deriving DecidableEq, Repr

/-- The product catalog: the `product` table. -/
abbrev Catalog := List Product

/-- `Product.query.get(product_id)`: primary-key lookup. -/
def catalogGet (catalog : Catalog) (pid : Nat) : Option Product :=
  catalog.find? (fun p => p.id == pid)

/-- The session cart `session['cart']`: insertion-ordered map from product id
to quantity. -/
abbrev Cart := List (Nat × Int)

/-- Python `cart.get(product_id_str, 0)`. -/
def cartGet (cart : Cart) (pid : Nat) : Int :=
  match cart.find? (fun e => e.1 == pid) with
  | some e => e.2
  | none => 0

/-- Python `cart[product_id_str] = v`: overwrite in place if the key is
present (dicts keep insertion order), otherwise append a fresh entry. -/
def cartSet (cart : Cart) (pid : Nat) (v : Int) : Cart :=
  if cart.any (fun e => e.1 == pid) then
    cart.map (fun e => if e.1 == pid then (pid, v) else e)
  else
    cart ++ [(pid, v)]

/-- Python `cart.pop(product_id_str, None)`: drop the entry if present. -/
def cartPop (cart : Cart) (pid : Nat) : Cart :=
  cart.filter (fun e => !(e.1 == pid))

/-- The `add_to_cart` route body (lines 124-135): defaults a missing session
cart to empty, then for positive quantity increments the entry (creating it
at the running value if absent) and flashes success; otherwise leaves the
cart untouched and flashes a validation warning. -/
def add_to_cart (session_cart : Option Cart) (product_id : Nat) (quantity : Int) :
    Cart × FlashMsg :=
  let cart := session_cart.getD []
  if quantity > 0 then
    (cartSet cart product_id (cartGet cart product_id + quantity),
     ⟨"تمت إضافة " ++ toString quantity ++ " كيلو من المنتج إلى السلة!", "success"⟩)
  else
    (cart, ⟨"الرجاء إدخال كمية صحيحة.", "warning"⟩)

/-- The `update_cart` route body (lines 189-196): only acts when the session
holds a cart; positive quantity overwrites the entry, non-positive removes
it. -/
def update_cart (session_cart : Option Cart) (product_id : Nat) (quantity : Int) :
    Option Cart :=
  match session_cart with
  | none => none
  | some cart =>
    if quantity > 0 then some (cartSet cart product_id quantity)
    else some (cartPop cart product_id)

/-- The `remove_from_cart` route body (lines 198-203). -/
def remove_from_cart (session_cart : Option Cart) (product_id : Nat) : Option Cart :=
  match session_cart with
  | none => none
  | some cart => some (cartPop cart product_id)

/-- One materialized cart line of `view_cart` and the checkout GET branch:
the dict `{'product': product, 'quantity': quantity, 'total': item_total}`. -/
structure CartLine where
  product : Product
  quantity : Int
  total : Rat
deriving DecidableEq, Repr

/-- The cart-materialization loop shared verbatim by `view_cart`
(lines 179-186) and the checkout redisplay branch (lines 227-233):
walk the cart entries in order with the accumulators `cart_items` and
`total_price`; entries whose product id does not resolve are skipped. -/
def materializeCart (catalog : Catalog) :
    Cart → List CartLine → Rat → List CartLine × Rat
  | [], cart_items, total_price => (cart_items, total_price)
  | (product_id, quantity) :: rest, cart_items, total_price =>
    match catalogGet catalog product_id with
    | some product =>
        materializeCart catalog rest
          (cart_items ++ [⟨product, quantity, product.price * (quantity : Rat)⟩])
          (total_price + product.price * (quantity : Rat))
    | none => materializeCart catalog rest cart_items total_price

/-- The `view_cart` route body (lines 177-187): materialize the session cart
against the current catalog; an absent session cart renders empty. -/
def view_cart (catalog : Catalog) (session_cart : Option Cart) :
    List CartLine × Rat :=
  match session_cart with
  | some cart => materializeCart catalog cart [] 0
  | none => ([], 0)

/-- The checkout order-creation loop (lines 215-220): walk the cart entries
in order with the accumulators `order_items` (rows added to the session) and
`total_price`; for each entry that resolves to a product, create an
`OrderItem` snapshotting the quantity and the product's current price and add
`product.price * quantity` to the running total; unresolvable entries are
skipped. -/
def checkoutLoop (catalog : Catalog) (oid : Nat) :
    Cart → List OrderItem → Rat → List OrderItem × Rat
  | [], order_items, total_price => (order_items, total_price)
  | (product_id, quantity) :: rest, order_items, total_price =>
    match catalogGet catalog product_id with
    | some product =>
        checkoutLoop catalog oid rest
          (order_items ++ [⟨oid, product.id, quantity, product.price⟩])
          (total_price + product.price * (quantity : Rat))
    | none => checkoutLoop catalog oid rest order_items total_price

/-- `send_order_notification_email` (lines 110-114): compose the message for
the fixed operator recipient and attempt delivery; every delivery failure is
caught and turned into a logger line, none propagates. The injected
`sendOutcome` stands for the `mail.send(msg)` call; the result is the
optional `app.logger.error` line. -/
def send_order_notification_email (sendOutcome : Except String Unit) :
    Option String :=
  match sendOutcome with
  | .ok _ => none
  | .error e => some ("Failed to send email: " ++ e)

/-- The checkout form (lines 92-96): full name, address, phone, each with a
`DataRequired` validator. -/
structure CheckoutForm where
  name : String
  address : String
  phone : String
deriving DecidableEq, Repr

/-- `CheckoutForm.validate_on_submit()` on a submitted form: the three
`DataRequired` validators demand non-empty data. -/
def checkoutFormValid (form : CheckoutForm) : Bool :=
  !(form.name == "") && !(form.address == "") && !(form.phone == "")

/-- The persisted order tables touched by checkout. -/
structure DB where
  orders : List Order
  order_items : List OrderItem
deriving DecidableEq, Repr

/-- The auto-increment id the relational store assigns to the order header
committed at line 214: one past the largest existing id. -/
def nextOrderId (db : DB) : Nat :=
  db.orders.foldl (fun m o => max m o.id) 0 + 1

/-- Where the `checkout` route ends up. -/
inductive CheckoutResult where
  | redirectLogin
  | redirectHome
  | render (cart_items : List CartLine) (total_price : Rat)
  | redirectConfirmation (order_id : Nat)
deriving DecidableEq, Repr

/-- Everything observable after a `checkout` request: the database, the
session cart, the swallowed-notification log line, and the response. -/
structure CheckoutOutcome where
  db : DB
  session_cart : Option Cart
  emailLog : Option String
  result : CheckoutResult
deriving DecidableEq, Repr

/-- The `checkout` route (lines 205-234). `@login_required` redirects an
unauthenticated visitor to the login view. A falsy `session.get('cart')`
(absent or empty dict) redirects home. On a submitted valid form: create the
order header with a provisional total of zero and commit (assigning its id),
run the order-creation loop, finalize `total_price` with the accumulated
running total and commit, attempt the notification (failures swallowed into
the log), pop the cart from the session, and redirect to the confirmation
view for the new order id. Otherwise re-render the form with the freshly
materialized cart. -/
def checkout (catalog : Catalog) (user : Identity) (uid : Nat) (now : Nat)
    (form : CheckoutForm) (submitted : Bool) (session_cart : Option Cart)
    (db : DB) (sendOutcome : Except String Unit) : CheckoutOutcome :=
  if !user.is_authenticated then ⟨db, session_cart, none, .redirectLogin⟩
  else
    match session_cart with
    | none => ⟨db, none, none, .redirectHome⟩
    | some cart =>
      if cart.isEmpty then ⟨db, some cart, none, .redirectHome⟩
      else if submitted && checkoutFormValid form then
        let provisional : Order :=
          { id := nextOrderId db, user_id := uid, total_price := 0,
            order_date := now, customer_name := form.name,
            address := form.address, phone := form.phone,
            status := statusInProgress }
        let looped := checkoutLoop catalog provisional.id cart [] 0
        let order := { provisional with total_price := looped.2 }
        let log := send_order_notification_email sendOutcome
        ⟨⟨db.orders ++ [order], db.order_items ++ looped.1⟩, none, log,
         .redirectConfirmation order.id⟩
      else
        let materialized := materializeCart catalog cart [] 0
        ⟨db, some cart, none, .render materialized.1 materialized.2⟩

/-- Where a gated admin request ends up. -/
inductive Response (α : Type) where
  | redirectLogin (msg : FlashMsg)
  | redirectHome (msg : FlashMsg)
  | notFound
  | ok (value : α)
deriving DecidableEq, Repr

/-- Flask-Login's `login_manager.login_message` with its configured `'info'`
category (lines 34-35). -/
def loginRequiredMsg : FlashMsg :=
  ⟨"الرجاء تسجيل الدخول للوصول إلى هذه الصفحة.", "info"⟩

/-- The flash issued by `admin_required` on denial (line 105). -/
def adminDeniedMsg : FlashMsg :=
  ⟨"ليس لديك الصلاحية للوصول لهذه الصفحة.", "danger"⟩

/-- Flask-Login's `@login_required` decorator over a state-passing handler:
an unauthenticated requester is redirected to the login view with the
configured info message and the state is untouched. -/
def login_required {σ α : Type} (user : Identity) (s : σ)
    (f : Unit → σ × Response α) : σ × Response α :=
  if user.is_authenticated then f ()
  else (s, .redirectLogin loginRequiredMsg)

/-- The `admin_required` decorator (lines 101-108): deny with a flash and a
redirect to home unless the requester is authenticated and has the admin
flag; the state is untouched on denial. -/
def admin_required {σ α : Type} (user : Identity) (s : σ)
    (f : Unit → σ × Response α) : σ × Response α :=
  if !user.is_authenticated || !user.is_admin then
    (s, .redirectHome adminDeniedMsg)
  else f ()

/-- The `admin_dashboard` route (lines 249-254), `@login_required` outermost
then `@admin_required`: renders all orders ordered newest first by
`order_date`. The order table is read-only here; it is threaded as state to
make that visible. -/
def admin_dashboard (user : Identity) (orders : List Order) :
    List Order × Response (List Order) :=
  login_required user orders (fun _ =>
    admin_required user orders (fun _ =>
      (orders, .ok (orders.mergeSort (fun a b => b.order_date ≤ a.order_date)))))

/-- The `complete_order` route (lines 256-264), `@login_required` outermost
then `@admin_required`: `get_or_404` the order, set its status to the
delivered literal unconditionally, commit, flash success and redirect to the
admin dashboard. -/
def complete_order (user : Identity) (orders : List Order) (order_id : Nat) :
    List Order × Response FlashMsg :=
  login_required user orders (fun _ =>
    admin_required user orders (fun _ =>
      match orders.find? (fun o => o.id == order_id) with
      | none => (orders, .notFound)
      | some _ =>
        (orders.map (fun o =>
           if o.id == order_id then { o with status := statusDelivered } else o),
         .ok ⟨"تم تحديث حالة الطلب رقم " ++ toString order_id ++
              " إلى \"تم التوصيل\".", "success"⟩)))

/-- `RegistrationForm.validate_email` (lines 84-85): the email-specific
validator fails exactly when some stored user already has the email. -/
def validate_email (users : List User) (email : String) : Bool :=
  !(users.any (fun u => u.email == email))

/-- The auto-increment id for a newly registered user. -/
def nextUserId (users : List User) : Nat :=
  users.foldl (fun m u => max m u.id) 0 + 1

/-- Where the `register` route ends up. -/
inductive RegisterResult where
  | redirectHome
  | redirectLogin (msg : FlashMsg)
  | renderForm
deriving DecidableEq, Repr

/-- The `register` route (lines 142-152) with the password-hashing
capability injected as `hashFn` (the `password` setter at line 49 stores
`bcrypt.generate_password_hash(password)`). An authenticated visitor is
redirected home. `validate_on_submit` combines the non-email validators
(name length, email format, password length and confirmation — abstracted as
`baseValid`) with `validate_email` against the stored users; only when all
pass is a user row added, carrying the computed hash of the plaintext, and
the visitor redirected to the login view. On any validation failure the form
is re-rendered and no row is added. -/
def register (hashFn : String → String) (user : Identity) (users : List User)
    (name email plaintext : String) (baseValid : Bool) :
    List User × RegisterResult :=
  if user.is_authenticated then (users, .redirectHome)
  else if baseValid && validate_email users email then
    (users ++ [{ id := nextUserId users, name := name, email := email,
                 password_hash := hashFn plaintext, is_admin := false }],
     .redirectLogin ⟨"تم إنشاء حسابك بنجاح! يمكنك الآن تسجيل الدخول.", "success"⟩)
  else (users, .renderForm)

/-! ### Helper lemmas about the cart store -/

theorem catalogGet_id {catalog : Catalog} {pid : Nat} {p : Product}
    (h : catalogGet catalog pid = some p) : p.id = pid := by
  simpa using List.find?_some h

theorem cartGet_cartSet_self (c : Cart) (pid : Nat) (v : Int) :
    cartGet (cartSet c pid v) pid = v := by
  by_cases hany : c.any (fun e => e.1 == pid) = true
  · have hmap : ((fun (e : Nat × Int) => e.1 == pid) ∘
        (fun e => if e.1 == pid then (pid, v) else e)) =
        (fun (e : Nat × Int) => e.1 == pid) := by
      funext e
      by_cases hk : e.1 = pid <;> simp [Function.comp, hk]
    have hsome : (c.find? (fun e => e.1 == pid)).isSome := by
      rw [List.find?_isSome]
      simpa [List.any_eq_true] using hany
    obtain ⟨a, ha⟩ := Option.isSome_iff_exists.1 hsome
    have hpa : a.1 = pid := by simpa using List.find?_some ha
    simp only [cartSet, hany, if_true, cartGet, List.find?_map, hmap, ha,
      Option.map_some']
    simp [hpa]
  · have hnone : c.find? (fun e => e.1 == pid) = none := by
      rw [List.find?_eq_none]
      intro x hx hpx
      exact hany (List.any_eq_true.2 ⟨x, hx, hpx⟩)
    simp only [cartSet, hany, if_false, Bool.false_eq_true, cartGet,
      List.find?_append, hnone, Option.none_or]
    simp

theorem cartGet_cartSet_other (c : Cart) (pid pid' : Nat) (v : Int)
    (h : pid' ≠ pid) :
    cartGet (cartSet c pid v) pid' = cartGet c pid' := by
  by_cases hany : c.any (fun e => e.1 == pid) = true
  · have hmap : ((fun (e : Nat × Int) => e.1 == pid') ∘
        (fun e => if e.1 == pid then (pid, v) else e)) =
        (fun (e : Nat × Int) => e.1 == pid') := by
      funext e
      by_cases hk : e.1 = pid
      · simp [Function.comp, hk, Ne.symm h]
      · simp [Function.comp, hk]
    simp only [cartSet, hany, if_true, cartGet, List.find?_map, hmap]
    cases hfound : c.find? (fun e => e.1 == pid') with
    | none => simp
    | some a =>
      have hpa : a.1 = pid' := by simpa using List.find?_some hfound
      simp [hpa, h]
  · simp only [cartSet, hany, if_false, Bool.false_eq_true, cartGet,
      List.find?_append]
    have htail : List.find? (fun (e : Nat × Int) => e.1 == pid') [(pid, v)] = none := by
      simp [Ne.symm h]
    rw [htail, Option.or_none]

theorem find?_cartPop_self (c : Cart) (pid : Nat) :
    (cartPop c pid).find? (fun e => e.1 == pid) = none := by
  refine List.find?_eq_none.2 ?_
  intro x hx
  rcases List.mem_filter.1 hx with ⟨-, hkeep⟩
  simpa using hkeep

theorem cartGet_cartPop_other (c : Cart) (pid pid' : Nat) (h : pid' ≠ pid) :
    cartGet (cartPop c pid) pid' = cartGet c pid' := by
  have hfind : (cartPop c pid).find? (fun e => e.1 == pid') =
      c.find? (fun e => e.1 == pid') := by
    rw [cartPop, List.find?_filter]
    congr 1
    funext e
    by_cases hk : e.1 = pid
    · simp [hk, Ne.symm h]
    · by_cases h2 : e.1 = pid' <;> simp [hk, h2, h]
  simp [cartGet, hfind]

/-! ### Helper lemmas about the materialization and order-creation loops -/

theorem materializeCart_dangling (catalog : Catalog) (pid : Nat) (q : Int)
    (hnone : catalogGet catalog pid = none) (c1 c2 : Cart) :
    ∀ acc t, materializeCart catalog (c1 ++ (pid, q) :: c2) acc t =
      materializeCart catalog (c1 ++ c2) acc t := by
  induction c1 with
  | nil =>
    intro acc t
    simp [materializeCart, hnone]
  | cons e rest ih =>
    intro acc t
    rcases e with ⟨k, w⟩
    cases hk : catalogGet catalog k with
    | some p =>
      simp only [List.cons_append, materializeCart, hk]
      exact ih _ _
    | none =>
      simp only [List.cons_append, materializeCart, hk]
      exact ih _ _

theorem checkoutLoop_dangling (catalog : Catalog) (oid : Nat) (pid : Nat)
    (q : Int) (hnone : catalogGet catalog pid = none) (c1 c2 : Cart) :
    ∀ acc t, checkoutLoop catalog oid (c1 ++ (pid, q) :: c2) acc t =
      checkoutLoop catalog oid (c1 ++ c2) acc t := by
  induction c1 with
  | nil =>
    intro acc t
    simp [checkoutLoop, hnone]
  | cons e rest ih =>
    intro acc t
    rcases e with ⟨k, w⟩
    cases hk : catalogGet catalog k with
    | some p =>
      simp only [List.cons_append, checkoutLoop, hk]
      exact ih _ _
    | none =>
      simp only [List.cons_append, checkoutLoop, hk]
      exact ih _ _

theorem checkoutLoop_shift (catalog : Catalog) (oid : Nat) (cart : Cart) :
    ∀ acc t, checkoutLoop catalog oid cart acc t =
      (acc ++ (checkoutLoop catalog oid cart [] 0).1,
       t + (checkoutLoop catalog oid cart [] 0).2) := by
  induction cart with
  | nil =>
    intro acc t
    simp [checkoutLoop]
  | cons e rest ih =>
    intro acc t
    rcases e with ⟨pid, qty⟩
    cases hk : catalogGet catalog pid with
    | some p =>
      simp only [checkoutLoop, hk, List.nil_append]
      rw [ih (acc ++ [({ order_id := oid, product_id := p.id, quantity := qty, price := p.price } : OrderItem)]) (t + p.price * (qty : Rat)),
        ih [({ order_id := oid, product_id := p.id, quantity := qty, price := p.price } : OrderItem)] (0 + p.price * (qty : Rat))]
      refine Prod.ext ?_ ?_
      · simp [List.append_assoc]
      · simp only
        ring
    | none =>
      simp only [checkoutLoop, hk]
      exact ih acc t

theorem checkoutLoop_total_eq_sum (catalog : Catalog) (oid : Nat) (cart : Cart) :
    (checkoutLoop catalog oid cart [] 0).2 =
      ((checkoutLoop catalog oid cart [] 0).1.map
        (fun it => it.price * (it.quantity : Rat))).sum := by
  induction cart with
  | nil => simp [checkoutLoop]
  | cons e rest ih =>
    rcases e with ⟨pid, qty⟩
    cases hk : catalogGet catalog pid with
    | some p =>
      simp only [checkoutLoop, hk, List.nil_append]
      rw [checkoutLoop_shift catalog oid rest [({ order_id := oid, product_id := p.id, quantity := qty, price := p.price } : OrderItem)]
        (0 + p.price * (qty : Rat))]
      simp only [List.singleton_append, List.map_cons, List.sum_cons, ← ih]
      ring
    | none =>
      simp only [checkoutLoop, hk]
      exact ih

theorem checkoutLoop_mem (catalog : Catalog) (oid : Nat) (cart : Cart) :
    ∀ acc t it, it ∈ (checkoutLoop catalog oid cart acc t).1 →
      it ∈ acc ∨ ∃ p, catalogGet catalog it.product_id = some p ∧
        it.price = p.price ∧ it.order_id = oid := by
  induction cart with
  | nil =>
    intro acc t it h
    exact Or.inl (by simpa [checkoutLoop] using h)
  | cons e rest ih =>
    intro acc t it h
    rcases e with ⟨pid, qty⟩
    cases hk : catalogGet catalog pid with
    | some p =>
      simp only [checkoutLoop, hk] at h
      rcases ih _ _ it h with hin | hex
      · rcases List.mem_append.1 hin with hin | hin
        · exact Or.inl hin
        · have heq : it = { order_id := oid, product_id := p.id, quantity := qty, price := p.price } := by simpa using hin
          subst heq
          refine Or.inr ⟨p, ?_, rfl, rfl⟩
          have hpid : p.id = pid := catalogGet_id hk
          show catalogGet catalog p.id = some p
          rw [hpid]
          exact hk
      · exact Or.inr hex
    | none =>
      simp only [checkoutLoop, hk] at h
      exact ih _ _ it h

theorem checkoutLoop_all_dangling (catalog : Catalog) (oid : Nat) (cart : Cart)
    (hall : ∀ e ∈ cart, catalogGet catalog e.1 = none) :
    ∀ acc t, checkoutLoop catalog oid cart acc t = (acc, t) := by
  induction cart with
  | nil =>
    intro acc t
    rfl
  | cons e rest ih =>
    intro acc t
    have he : catalogGet catalog e.1 = none := hall e (by simp)
    rcases e with ⟨pid, qty⟩
    simp only [checkoutLoop, he]
    exact ih (fun x hx => hall x (List.mem_cons_of_mem _ hx)) acc t

/-- Reduction of the `checkout` route on its commit branch: authenticated
requester, non-empty cart, submitted valid form. -/
theorem checkout_commit (catalog : Catalog) (adm : Bool) (uid now : Nat)
    (form : CheckoutForm) (cart : Cart) (db : DB) (send : Except String Unit)
    (hcart : cart.isEmpty = false) (hform : checkoutFormValid form = true) :
    checkout catalog ⟨true, adm⟩ uid now form true (some cart) db send =
      ⟨⟨db.orders ++ [{ id := nextOrderId db, user_id := uid,
                        total_price := (checkoutLoop catalog (nextOrderId db) cart [] 0).2,
                        order_date := now, customer_name := form.name,
                        address := form.address, phone := form.phone,
                        status := statusInProgress }],
        db.order_items ++ (checkoutLoop catalog (nextOrderId db) cart [] 0).1⟩,
       none, send_order_notification_email send,
       .redirectConfirmation (nextOrderId db)⟩ := by
  simp [checkout, hcart, hform]

/-! ### Claim theorems -/

/-- C1: for every successful checkout (authenticated visitor, non-empty cart,
submitted valid form) the committed order's `total_price` equals exactly the
sum over its created `OrderItem` rows of `OrderItem.price * OrderItem.quantity`. -/
theorem checkout_total_price_eq_sum (catalog : Catalog) (adm : Bool)
    (uid now : Nat) (form : CheckoutForm) (cart : Cart) (db : DB)
    (send : Except String Unit) (hcart : cart ≠ [])
    (hform : checkoutFormValid form = true) :
    ∃ order items,
      (checkout catalog ⟨true, adm⟩ uid now form true (some cart) db send).db.orders =
        db.orders ++ [order] ∧
      (checkout catalog ⟨true, adm⟩ uid now form true (some cart) db send).db.order_items =
        db.order_items ++ items ∧
      (∀ it ∈ items, it.order_id = order.id) ∧
      order.total_price =
        (items.map (fun it => it.price * (it.quantity : Rat))).sum := by
  have hne : cart.isEmpty = false := by
    cases cart with
    | nil => exact absurd rfl hcart
    | cons a l => rfl
  rw [checkout_commit catalog adm uid now form cart db send hne hform]
  refine ⟨_, (checkoutLoop catalog (nextOrderId db) cart [] 0).1, rfl, rfl, ?_, ?_⟩
  · intro it hit
    rcases checkoutLoop_mem catalog (nextOrderId db) cart [] 0 it hit with
      h | ⟨p, _, _, h⟩
    · exact absurd h (List.not_mem_nil it)
    · exact h
  · exact checkoutLoop_total_eq_sum catalog (nextOrderId db) cart

/-- Witness for C1 at a concrete catalog, cart and form. -/
theorem checkout_total_price_eq_sum_witness :
    (([(1, 3)] : Cart) ≠ [] ∧
      checkoutFormValid ⟨"gomaa", "cairo", "0100"⟩ = true) ∧
    (∃ order items,
      (checkout [⟨1, "tomato", 17/2, "img"⟩] ⟨true, false⟩ 2 0
          ⟨"gomaa", "cairo", "0100"⟩ true (some [(1, 3)]) ⟨[], []⟩
          (.ok ())).db.orders = ([] : List Order) ++ [order] ∧
      (checkout [⟨1, "tomato", 17/2, "img"⟩] ⟨true, false⟩ 2 0
          ⟨"gomaa", "cairo", "0100"⟩ true (some [(1, 3)]) ⟨[], []⟩
          (.ok ())).db.order_items = ([] : List OrderItem) ++ items ∧
      (∀ it ∈ items, it.order_id = order.id) ∧
      order.total_price =
        (items.map (fun it => it.price * (it.quantity : Rat))).sum) :=
  ⟨⟨by decide, by decide⟩,
   checkout_total_price_eq_sum [⟨1, "tomato", 17/2, "img"⟩] false 2 0
     ⟨"gomaa", "cairo", "0100"⟩ [(1, 3)] ⟨[], []⟩ (.ok ())
     (by decide) (by decide)⟩

/-- C2: every `OrderItem` a checkout creates snapshots the referenced
product's price as found in the catalog consulted at checkout time. The cart
stores only (product id, quantity) pairs, so a price seen at add-to-cart time
is not an input of `checkout` at all: when the catalog price changed in
between, the checkout-time price is the one captured. -/
theorem orderItem_price_is_checkout_price (catalog : Catalog) (adm : Bool)
    (uid now : Nat) (form : CheckoutForm) (cart : Cart) (db : DB)
    (send : Except String Unit) (it : OrderItem)
    (hmem : it ∈ (checkout catalog ⟨true, adm⟩ uid now form true
      (some cart) db send).db.order_items)
    (hnew : it ∉ db.order_items) :
    ∃ p, catalogGet catalog it.product_id = some p ∧ it.price = p.price := by
  by_cases hne : cart.isEmpty = true
  · have hred : (checkout catalog ⟨true, adm⟩ uid now form true
        (some cart) db send).db.order_items = db.order_items := by
      simp [checkout, hne]
    rw [hred] at hmem
    exact absurd hmem hnew
  · by_cases hform : checkoutFormValid form = true
    · rw [checkout_commit catalog adm uid now form cart db send
        (by simpa using hne) hform] at hmem
      rcases List.mem_append.1 hmem with h | h
      · exact absurd h hnew
      · rcases checkoutLoop_mem catalog (nextOrderId db) cart [] 0 it h with
          h0 | ⟨p, hp, hpr, -⟩
        · exact absurd h0 (List.not_mem_nil it)
        · exact ⟨p, hp, hpr⟩
    · have hf : checkoutFormValid form = false := by simpa using hform
      have hred : (checkout catalog ⟨true, adm⟩ uid now form true
          (some cart) db send).db.order_items = db.order_items := by
        simp [checkout, hne, hf]
      rw [hred] at hmem
      exact absurd hmem hnew

/-- Witness for C2: the item created for product 1 carries its catalog
price. -/
theorem orderItem_price_is_checkout_price_witness :
    ((⟨1, 1, 2, 5⟩ : OrderItem) ∈
        (checkout [⟨1, "tomato", 5, "img"⟩] ⟨true, false⟩ 2 0 ⟨"a", "b", "c"⟩
          true (some [(1, 2)]) ⟨[], []⟩ (.ok ())).db.order_items ∧
      (⟨1, 1, 2, 5⟩ : OrderItem) ∉ (⟨[], []⟩ : DB).order_items) ∧
    ∃ p, catalogGet [⟨1, "tomato", 5, "img"⟩]
        (⟨1, 1, 2, 5⟩ : OrderItem).product_id = some p ∧
      (⟨1, 1, 2, 5⟩ : OrderItem).price = p.price :=
  ⟨⟨by decide, by decide⟩,
   orderItem_price_is_checkout_price [⟨1, "tomato", 5, "img"⟩] false 2 0
     ⟨"a", "b", "c"⟩ [(1, 2)] ⟨[], []⟩ (.ok ()) ⟨1, 1, 2, 5⟩
     (by decide) (by decide)⟩

/-- C3: a cart entry whose product id does not resolve to a catalog product
is silently dropped by both the cart-display materialization and the
checkout order-creation loop: deleting the entry from the cart changes
neither the displayed lines and total nor the created order items and
running total, while all resolvable entries are processed normally. -/
theorem dangling_entry_dropped (catalog : Catalog) (pid : Nat) (q : Int)
    (c1 c2 : Cart) (oid : Nat) (hnone : catalogGet catalog pid = none) :
    view_cart catalog (some (c1 ++ (pid, q) :: c2)) =
      view_cart catalog (some (c1 ++ c2)) ∧
    checkoutLoop catalog oid (c1 ++ (pid, q) :: c2) [] 0 =
      checkoutLoop catalog oid (c1 ++ c2) [] 0 := by
  refine ⟨?_, checkoutLoop_dangling catalog oid pid q hnone c1 c2 [] 0⟩
  simp only [view_cart]
  exact materializeCart_dangling catalog pid q hnone c1 c2 [] 0

/-- Witness for C3: the scenario cart with entries for product 1 (resolves)
and product 2 (deleted). -/
theorem dangling_entry_dropped_witness :
    catalogGet [⟨1, "tomato", 10, "img"⟩] 2 = none ∧
    (view_cart [⟨1, "tomato", 10, "img"⟩] (some ([(1, 2)] ++ (2, 5) :: [])) =
        view_cart [⟨1, "tomato", 10, "img"⟩] (some ([(1, 2)] ++ [])) ∧
      checkoutLoop [⟨1, "tomato", 10, "img"⟩] 1 ([(1, 2)] ++ (2, 5) :: []) [] 0 =
        checkoutLoop [⟨1, "tomato", 10, "img"⟩] 1 ([(1, 2)] ++ []) [] 0) :=
  ⟨by decide,
   dangling_entry_dropped [⟨1, "tomato", 10, "img"⟩] 2 5 [(1, 2)] [] 1
     (by decide)⟩

/-- C4: once the order and its items are committed, a failing notification is
caught and logged and never propagates: the committed database rows are
exactly those of a successful delivery, the visitor's cart is still cleared,
and the response still redirects to the confirmation view of the new
order. -/
theorem notification_failure_swallowed (catalog : Catalog) (adm : Bool)
    (uid now : Nat) (form : CheckoutForm) (cart : Cart) (db : DB) (e : String)
    (hcart : cart ≠ []) (hform : checkoutFormValid form = true) :
    (checkout catalog ⟨true, adm⟩ uid now form true (some cart) db (.error e)).db =
      (checkout catalog ⟨true, adm⟩ uid now form true (some cart) db (.ok ())).db ∧
    (checkout catalog ⟨true, adm⟩ uid now form true (some cart) db
        (.error e)).emailLog = some ("Failed to send email: " ++ e) ∧
    (checkout catalog ⟨true, adm⟩ uid now form true (some cart) db
        (.error e)).session_cart = none ∧
    (checkout catalog ⟨true, adm⟩ uid now form true (some cart) db
        (.error e)).result = .redirectConfirmation (nextOrderId db) := by
  have hne : cart.isEmpty = false := by
    cases cart with
    | nil => exact absurd rfl hcart
    | cons a l => rfl
  rw [checkout_commit catalog adm uid now form cart db (.error e) hne hform,
    checkout_commit catalog adm uid now form cart db (.ok ()) hne hform]
  exact ⟨rfl, rfl, rfl, rfl⟩

/-- Witness for C4 at a concrete failing delivery. -/
theorem notification_failure_swallowed_witness :
    (([(1, 3)] : Cart) ≠ [] ∧
      checkoutFormValid ⟨"a", "b", "c"⟩ = true) ∧
    ((checkout [⟨1, "tomato", 10, "img"⟩] ⟨true, false⟩ 2 0 ⟨"a", "b", "c"⟩
        true (some [(1, 3)]) ⟨[], []⟩ (.error "smtp down")).db =
      (checkout [⟨1, "tomato", 10, "img"⟩] ⟨true, false⟩ 2 0 ⟨"a", "b", "c"⟩
        true (some [(1, 3)]) ⟨[], []⟩ (.ok ())).db ∧
    (checkout [⟨1, "tomato", 10, "img"⟩] ⟨true, false⟩ 2 0 ⟨"a", "b", "c"⟩
        true (some [(1, 3)]) ⟨[], []⟩ (.error "smtp down")).emailLog =
      some ("Failed to send email: " ++ "smtp down") ∧
    (checkout [⟨1, "tomato", 10, "img"⟩] ⟨true, false⟩ 2 0 ⟨"a", "b", "c"⟩
        true (some [(1, 3)]) ⟨[], []⟩ (.error "smtp down")).session_cart = none ∧
    (checkout [⟨1, "tomato", 10, "img"⟩] ⟨true, false⟩ 2 0 ⟨"a", "b", "c"⟩
        true (some [(1, 3)]) ⟨[], []⟩ (.error "smtp down")).result =
      .redirectConfirmation (nextOrderId ⟨[], []⟩)) :=
  ⟨⟨by decide, by decide⟩,
   notification_failure_swallowed [⟨1, "tomato", 10, "img"⟩] false 2 0
     ⟨"a", "b", "c"⟩ [(1, 3)] ⟨[], []⟩ "smtp down" (by decide) (by decide)⟩

/-- C5: `add_to_cart` with a positive quantity increments exactly the entry
for the given product id (creating it if absent) and flashes success; with a
non-positive quantity it leaves the cart mapping unchanged and flashes a
validation warning. -/
theorem add_to_cart_spec (cart : Cart) (pid : Nat) (q : Int) :
    (0 < q →
      cartGet (add_to_cart (some cart) pid q).1 pid = cartGet cart pid + q ∧
      (∀ pid', pid' ≠ pid →
        cartGet (add_to_cart (some cart) pid q).1 pid' = cartGet cart pid') ∧
      (add_to_cart (some cart) pid q).2.category = "success") ∧
    (q ≤ 0 →
      add_to_cart (some cart) pid q =
        (cart, ⟨"الرجاء إدخال كمية صحيحة.", "warning"⟩)) := by
  constructor
  · intro hq
    have h1 : add_to_cart (some cart) pid q =
        (cartSet cart pid (cartGet cart pid + q),
         ⟨"تمت إضافة " ++ toString q ++ " كيلو من المنتج إلى السلة!",
          "success"⟩) := by
      simp [add_to_cart, hq]
    rw [h1]
    exact ⟨cartGet_cartSet_self cart pid (cartGet cart pid + q),
      fun pid' h => cartGet_cartSet_other cart pid pid' (cartGet cart pid + q) h,
      rfl⟩
  · intro hq
    simp [add_to_cart, not_lt.2 hq]

/-- Witness for C5: a positive add on an existing entry and a rejected
non-positive add. -/
theorem add_to_cart_spec_witness :
    cartGet (add_to_cart (some [(1, 2), (3, 4)]) 1 5).1 1 =
      cartGet [(1, 2), (3, 4)] 1 + 5 ∧
    add_to_cart (some [(1, 2), (3, 4)]) 1 (-2) =
      ([(1, 2), (3, 4)], ⟨"الرجاء إدخال كمية صحيحة.", "warning"⟩) :=
  ⟨((add_to_cart_spec [(1, 2), (3, 4)] 1 5).1 (by decide)).1,
   (add_to_cart_spec [(1, 2), (3, 4)] 1 (-2)).2 (by decide)⟩

/-! ### Helper lemmas for the admin order-status transition -/

theorem find?_setDelivered (orders : List Order) (oid : Nat) (o : Order)
    (h : orders.find? (fun x => x.id == oid) = some o) :
    (orders.map (fun x =>
        if x.id == oid then { x with status := statusDelivered } else x)).find?
        (fun x => x.id == oid) = some { o with status := statusDelivered } := by
  rw [List.find?_map]
  have hcomp : ((fun (x : Order) => x.id == oid) ∘
      (fun x => if x.id == oid then { x with status := statusDelivered } else x)) =
      (fun (x : Order) => x.id == oid) := by
    funext x
    by_cases hx : x.id = oid <;> simp [Function.comp, hx]
  rw [hcomp, h]
  have ho : o.id = oid := by simpa using List.find?_some h
  simp [Option.map_some', ho]

/-- Reduction of `complete_order` for an authenticated admin requester: both
decorators pass and the handler body runs. -/
theorem complete_order_admin (orders : List Order) (oid : Nat) :
    complete_order ⟨true, true⟩ orders oid =
      match orders.find? (fun x => x.id == oid) with
      | none => (orders, .notFound)
      | some _ =>
        (orders.map (fun x =>
           if x.id == oid then { x with status := statusDelivered } else x),
         .ok ⟨"تم تحديث حالة الطلب رقم " ++ toString oid ++
              " إلى \"تم التوصيل\".", "success"⟩) := rfl

theorem setDelivered_idem (orders : List Order) (oid : Nat) :
    ((orders.map (fun x =>
        if x.id == oid then { x with status := statusDelivered } else x)).map
        (fun x =>
          if x.id == oid then { x with status := statusDelivered } else x)) =
      orders.map (fun x =>
        if x.id == oid then { x with status := statusDelivered } else x) := by
  induction orders with
  | nil => rfl
  | cons y t ih =>
    simp only [List.map_cons, ih]
    congr 1
    by_cases hy : y.id = oid <;> simp [hy]

/-- C6: `complete_order` invoked by an admin on an existing order succeeds
and sets its status to the delivered literal; invoking it again on the
already-delivered order succeeds with the same flash and changes nothing
(idempotent), and no order other than the target is touched. -/
theorem markDelivered_idempotent (orders : List Order) (oid : Nat) (o : Order)
    (hfind : orders.find? (fun x => x.id == oid) = some o) :
    ∃ orders' msg,
      complete_order ⟨true, true⟩ orders oid = (orders', Response.ok msg) ∧
      (orders'.find? (fun x => x.id == oid)).map Order.status =
        some statusDelivered ∧
      complete_order ⟨true, true⟩ orders' oid = (orders', Response.ok msg) ∧
      (∀ x ∈ orders, x.id ≠ oid → x ∈ orders') ∧
      (∀ x ∈ orders', x.id ≠ oid → x ∈ orders) := by
  refine ⟨orders.map (fun x =>
      if x.id == oid then { x with status := statusDelivered } else x),
    ⟨"تم تحديث حالة الطلب رقم " ++ toString oid ++ " إلى \"تم التوصيل\".",
     "success"⟩, ?_, ?_, ?_, ?_, ?_⟩
  · rw [complete_order_admin, hfind]
  · rw [find?_setDelivered orders oid o hfind]
    rfl
  · have h2 := find?_setDelivered orders oid o hfind
    rw [complete_order_admin, h2, setDelivered_idem]
  · intro x hx hne
    refine List.mem_map.2 ⟨x, hx, ?_⟩
    simp [hne]
  · intro x hx hne
    rcases List.mem_map.1 hx with ⟨y, hy, hxy⟩
    by_cases hy2 : y.id = oid
    · exfalso
      apply hne
      rw [← hxy]
      simp [hy2]
    · rw [← hxy]
      simpa [hy2] using hy

/-- Witness for C6 on a one-order table. -/
theorem markDelivered_idempotent_witness :
    ([⟨1, 1, 30, 0, "n", "a", "p", statusInProgress⟩] : List Order).find?
        (fun x => x.id == 1) =
      some ⟨1, 1, 30, 0, "n", "a", "p", statusInProgress⟩ ∧
    ∃ orders' msg,
      complete_order ⟨true, true⟩
          [⟨1, 1, 30, 0, "n", "a", "p", statusInProgress⟩] 1 =
        (orders', Response.ok msg) ∧
      (orders'.find? (fun x => x.id == 1)).map Order.status =
        some statusDelivered ∧
      complete_order ⟨true, true⟩ orders' 1 = (orders', Response.ok msg) ∧
      (∀ x ∈ ([⟨1, 1, 30, 0, "n", "a", "p", statusInProgress⟩] : List Order),
        x.id ≠ 1 → x ∈ orders') ∧
      (∀ x ∈ orders', x.id ≠ 1 →
        x ∈ ([⟨1, 1, 30, 0, "n", "a", "p", statusInProgress⟩] : List Order)) :=
  ⟨by decide,
   markDelivered_idempotent [⟨1, 1, 30, 0, "n", "a", "p", statusInProgress⟩] 1
     ⟨1, 1, 30, 0, "n", "a", "p", statusInProgress⟩ (by decide)⟩

/-- C7 counterexample: an unauthenticated requester invoking `complete_order`
on an existing order is intercepted by `login_required` and redirected to the
login view with the configured info message — not to the home view with the
`admin_required` warning flash the claim describes. -/
theorem admin_deny_counterexample :
    (complete_order ⟨false, false⟩
        [⟨1, 1, 30, 0, "n", "a", "p", statusInProgress⟩] 1).2 =
      Response.redirectLogin loginRequiredMsg ∧
    (Response.redirectLogin loginRequiredMsg : Response FlashMsg) ≠
      Response.redirectHome adminDeniedMsg := by
  exact ⟨rfl, by decide⟩

/-- C7 (amended): every requester that is not an authenticated admin is
denied by both the admin order listing and `complete_order`, regardless of
whether the target order exists, and no state mutation occurs. An
authenticated non-admin is redirected to the home view with the warning
flash; an unauthenticated requester is intercepted first by `login_required`
and redirected to the login view with the configured info message. -/
theorem admin_routes_deny_non_admin (user : Identity) (orders : List Order)
    (oid : Nat) (h : ¬(user.is_authenticated = true ∧ user.is_admin = true)) :
    (complete_order user orders oid).1 = orders ∧
    (admin_dashboard user orders).1 = orders ∧
    ((user.is_authenticated = false ∧
        (complete_order user orders oid).2 = .redirectLogin loginRequiredMsg ∧
        (admin_dashboard user orders).2 = .redirectLogin loginRequiredMsg) ∨
      (user.is_authenticated = true ∧ user.is_admin = false ∧
        (complete_order user orders oid).2 = .redirectHome adminDeniedMsg ∧
        (admin_dashboard user orders).2 = .redirectHome adminDeniedMsg)) := by
  obtain ⟨a, b⟩ := user
  cases a
  · exact ⟨rfl, rfl, Or.inl ⟨rfl, rfl, rfl⟩⟩
  · cases b
    · exact ⟨rfl, rfl, Or.inr ⟨rfl, rfl, rfl, rfl⟩⟩
    · exact absurd ⟨rfl, rfl⟩ h

/-- Witness for the amended C7 at an authenticated non-admin requester and a
non-existing order id. -/
theorem admin_routes_deny_non_admin_witness :
    ¬((Identity.mk true false).is_authenticated = true ∧
        (Identity.mk true false).is_admin = true) ∧
    ((complete_order ⟨true, false⟩ [] 7).1 = [] ∧
      (admin_dashboard ⟨true, false⟩ []).1 = [] ∧
      (((Identity.mk true false).is_authenticated = false ∧
          (complete_order ⟨true, false⟩ [] 7).2 = .redirectLogin loginRequiredMsg ∧
          (admin_dashboard ⟨true, false⟩ []).2 = .redirectLogin loginRequiredMsg) ∨
        ((Identity.mk true false).is_authenticated = true ∧
          (Identity.mk true false).is_admin = false ∧
          (complete_order ⟨true, false⟩ [] 7).2 = .redirectHome adminDeniedMsg ∧
          (admin_dashboard ⟨true, false⟩ []).2 = .redirectHome adminDeniedMsg))) :=
  ⟨by decide, admin_routes_deny_non_admin ⟨true, false⟩ [] 7 (by decide)⟩

/-- C8: `update_cart` on an existing session cart overwrites the entry to
exactly the given quantity when it is positive, removes the entry entirely
when it is non-positive, and leaves every other entry unchanged. -/
theorem update_cart_spec (cart : Cart) (pid : Nat) (q : Int) :
    ∃ c', update_cart (some cart) pid q = some c' ∧
      (0 < q → cartGet c' pid = q) ∧
      (q ≤ 0 → c'.find? (fun e => e.1 == pid) = none) ∧
      (∀ pid', pid' ≠ pid → cartGet c' pid' = cartGet cart pid') := by
  by_cases hq : 0 < q
  · exact ⟨cartSet cart pid q, by simp [update_cart, hq],
      fun _ => cartGet_cartSet_self cart pid q,
      fun hle => absurd hq (not_lt.2 hle),
      fun pid' h => cartGet_cartSet_other cart pid pid' q h⟩
  · exact ⟨cartPop cart pid, by simp [update_cart, hq],
      fun h0 => absurd h0 hq,
      fun _ => find?_cartPop_self cart pid,
      fun pid' h => cartGet_cartPop_other cart pid pid' h⟩

/-- Witness for C8: the scenario `setQuantity(1, 0)` on the cart `{1: 4}`. -/
theorem update_cart_spec_witness :
    ∃ c', update_cart (some [(1, 4)]) 1 0 = some c' ∧
      ((0 : Int) < 0 → cartGet c' 1 = 0) ∧
      ((0 : Int) ≤ 0 → c'.find? (fun e => e.1 == 1) = none) ∧
      (∀ pid', pid' ≠ 1 → cartGet c' pid' = cartGet [(1, 4)] pid') :=
  update_cart_spec [(1, 4)] 1 0

/-- C9: registering with an email an existing user already holds fails the
duplicate-email validation and adds no user row; registering with a fresh
email on an otherwise valid form adds exactly one user row whose stored
credential is the computed hash of the plaintext — never the plaintext
itself. -/
theorem register_spec (hashFn : String → String) (adm : Bool)
    (users : List User) (name email plaintext : String) (baseValid : Bool) :
    ((∃ u ∈ users, u.email = email) →
      register hashFn ⟨false, adm⟩ users name email plaintext baseValid =
        (users, .renderForm)) ∧
    (baseValid = true → (∀ u ∈ users, u.email ≠ email) →
      register hashFn ⟨false, adm⟩ users name email plaintext baseValid =
        (users ++ [{ id := nextUserId users, name := name, email := email,
                     password_hash := hashFn plaintext, is_admin := false }],
         .redirectLogin
           ⟨"تم إنشاء حسابك بنجاح! يمكنك الآن تسجيل الدخول.", "success"⟩) ∧
      (hashFn plaintext ≠ plaintext →
        ({ id := nextUserId users, name := name, email := email,
           password_hash := hashFn plaintext,
           is_admin := false } : User).password_hash ≠ plaintext)) := by
  constructor
  · rintro ⟨u, hu, heq⟩
    have hv : validate_email users email = false := by
      simp only [validate_email, Bool.not_eq_false', List.any_eq_true]
      exact ⟨u, hu, by simpa using heq⟩
    simp [register, hv]
  · intro hb hall
    have hv : validate_email users email = true := by
      simp only [validate_email, Bool.not_eq_true', List.any_eq_false]
      intro u hu
      simpa using hall u hu
    exact ⟨by simp [register, hv, hb], fun hne => hne⟩

/-- Witness for C9: a duplicate registration is rejected and a fresh one adds
exactly the hashed row. -/
theorem register_spec_witness :
    register (fun s => "H" ++ s) ⟨false, false⟩
        [⟨1, "admin", "a@b.c", "h1", true⟩] "x" "a@b.c" "pw" true =
      ([⟨1, "admin", "a@b.c", "h1", true⟩], .renderForm) ∧
    register (fun s => "H" ++ s) ⟨false, false⟩
        [⟨1, "admin", "a@b.c", "h1", true⟩] "y" "d@e.f" "pw" true =
      ([⟨1, "admin", "a@b.c", "h1", true⟩] ++
        [{ id := nextUserId [⟨1, "admin", "a@b.c", "h1", true⟩], name := "y",
           email := "d@e.f", password_hash := (fun s => "H" ++ s) "pw",
           is_admin := false }],
       .redirectLogin
         ⟨"تم إنشاء حسابك بنجاح! يمكنك الآن تسجيل الدخول.", "success"⟩) :=
  ⟨(register_spec (fun s => "H" ++ s) false [⟨1, "admin", "a@b.c", "h1", true⟩]
      "x" "a@b.c" "pw" true).1
      ⟨⟨1, "admin", "a@b.c", "h1", true⟩, by decide, rfl⟩,
   ((register_spec (fun s => "H" ++ s) false [⟨1, "admin", "a@b.c", "h1", true⟩]
      "y" "d@e.f" "pw" true).2 rfl (by decide)).1⟩

/-- C10: a checkout with a valid submitted form and a non-empty cart none of
whose entries resolves to an existing product still creates and commits an
order: it has zero order items, `total_price` 0, the session cart is
cleared, and the response redirects to that order's confirmation view. -/
theorem checkout_no_resolvable_entries (catalog : Catalog) (adm : Bool)
    (uid now : Nat) (form : CheckoutForm) (cart : Cart) (db : DB)
    (send : Except String Unit) (hcart : cart ≠ [])
    (hform : checkoutFormValid form = true)
    (hall : ∀ e ∈ cart, catalogGet catalog e.1 = none) :
    ∃ order,
      (checkout catalog ⟨true, adm⟩ uid now form true (some cart) db send).db.orders =
        db.orders ++ [order] ∧
      order.total_price = 0 ∧
      (checkout catalog ⟨true, adm⟩ uid now form true (some cart) db send).db.order_items =
        db.order_items ∧
      (checkout catalog ⟨true, adm⟩ uid now form true (some cart) db send).session_cart =
        none ∧
      (checkout catalog ⟨true, adm⟩ uid now form true (some cart) db send).result =
        .redirectConfirmation order.id := by
  have hne : cart.isEmpty = false := by
    cases cart with
    | nil => exact absurd rfl hcart
    | cons a l => rfl
  have hloop := checkoutLoop_all_dangling catalog (nextOrderId db) cart hall [] 0
  rw [checkout_commit catalog adm uid now form cart db send hne hform]
  refine ⟨_, rfl, ?_, ?_, rfl, rfl⟩
  · show (checkoutLoop catalog (nextOrderId db) cart [] 0).2 = 0
    rw [hloop]
  · show db.order_items ++ (checkoutLoop catalog (nextOrderId db) cart [] 0).1 =
      db.order_items
    rw [hloop]
    simp

/-- Witness for C10: a cart holding only an entry for a deleted product. -/
theorem checkout_no_resolvable_entries_witness :
    (([(2, 5)] : Cart) ≠ [] ∧ checkoutFormValid ⟨"a", "b", "c"⟩ = true ∧
      (∀ e ∈ ([(2, 5)] : Cart), catalogGet [⟨1, "tomato", 10, "img"⟩] e.1 = none)) ∧
    ∃ order,
      (checkout [⟨1, "tomato", 10, "img"⟩] ⟨true, false⟩ 2 0 ⟨"a", "b", "c"⟩
          true (some [(2, 5)]) ⟨[], []⟩ (.ok ())).db.orders =
        ([] : List Order) ++ [order] ∧
      order.total_price = 0 ∧
      (checkout [⟨1, "tomato", 10, "img"⟩] ⟨true, false⟩ 2 0 ⟨"a", "b", "c"⟩
          true (some [(2, 5)]) ⟨[], []⟩ (.ok ())).db.order_items =
        ([] : List OrderItem) ∧
      (checkout [⟨1, "tomato", 10, "img"⟩] ⟨true, false⟩ 2 0 ⟨"a", "b", "c"⟩
          true (some [(2, 5)]) ⟨[], []⟩ (.ok ())).session_cart = none ∧
      (checkout [⟨1, "tomato", 10, "img"⟩] ⟨true, false⟩ 2 0 ⟨"a", "b", "c"⟩
          true (some [(2, 5)]) ⟨[], []⟩ (.ok ())).result =
        .redirectConfirmation order.id :=
  ⟨⟨by decide, by decide, by decide⟩,
   checkout_no_resolvable_entries [⟨1, "tomato", 10, "img"⟩] false 2 0
     ⟨"a", "b", "c"⟩ [(2, 5)] ⟨[], []⟩ (.ok ()) (by decide) (by decide)
     (by decide)⟩

end OnlineStore
